import Mathlib

/-!
Verification of the wxWidgets GSocket layer specification against a shallow
embedding of the sampled sources:

  * `include/wx/gsocket.h` — enumerations, event flags, the inline
    `GSocketManager::Get` singleton accessor and the GAddress/GSocket API.
  * `include/wx/unix/apptbase.h` — `wxAppTraits::GetSocketManager`.
  * `src/motif/settings.cpp` — `wxSystemSettings::GetSystemMetric`.

Function bodies that live in platform files outside the sampled sources
(the GAddress setters/getters, socket I/O, event dispatch) are modelled
from the specification; each such definition carries a doc comment starting
with `Modelled from the spec:` naming what is missing.
-/

namespace WxGSocket

/-- The C `enum GAddressType` from include/wx/gsocket.h (GSOCK_NOFAMILY = 0). -/
inductive GAddressType where
  | GSOCK_NOFAMILY
  | GSOCK_INET
  | GSOCK_INET6
  | GSOCK_UNIX
deriving DecidableEq, Repr

/-- The C `enum GSocketStream` from include/wx/gsocket.h. -/
inductive GSocketStream where
  | GSOCK_STREAMED
  | GSOCK_UNSTREAMED
deriving DecidableEq, Repr

/-- The C `enum GSocketError` from include/wx/gsocket.h: the fixed error
enumeration of the socket layer (GSOCK_NOERROR = 0 through GSOCK_OPTERR). -/
inductive GSocketError where
  | GSOCK_NOERROR
  | GSOCK_INVOP
  | GSOCK_IOERR
  | GSOCK_INVADDR
  | GSOCK_INVSOCK
  | GSOCK_NOHOST
  | GSOCK_INVPORT
  | GSOCK_WOULDBLOCK
  | GSOCK_TIMEDOUT
  | GSOCK_MEMERR
  | GSOCK_OPTERR
deriving DecidableEq, Repr, Fintype

/-- The C `enum GSocketEvent` from include/wx/gsocket.h (GSOCK_INPUT = 0,
GSOCK_OUTPUT = 1, GSOCK_CONNECTION = 2, GSOCK_LOST = 3). -/
inductive GSocketEvent where
  | GSOCK_INPUT
  | GSOCK_OUTPUT
  | GSOCK_CONNECTION
  | GSOCK_LOST
deriving DecidableEq, Repr, Fintype

/-- The numeric value of each `GSocketEvent` enumerator in the source. -/
def GSocketEvent.code : GSocketEvent → Nat
  | .GSOCK_INPUT => 0
  | .GSOCK_OUTPUT => 1
  | .GSOCK_CONNECTION => 2
  | .GSOCK_LOST => 3

/-- The constant `GSOCK_MAX_EVENT = 4` from include/wx/gsocket.h. -/
def GSOCK_MAX_EVENT : Nat := 4

/-- The anonymous flag enum of include/wx/gsocket.h: each event-flag constant
is `1 << event`. -/
def eventFlag (e : GSocketEvent) : Nat := 1 <<< e.code

/-- The constant `GSOCK_INPUT_FLAG = 1 << GSOCK_INPUT`. -/
def GSOCK_INPUT_FLAG : Nat := eventFlag .GSOCK_INPUT

/-- The constant `GSOCK_OUTPUT_FLAG = 1 << GSOCK_OUTPUT`. -/
def GSOCK_OUTPUT_FLAG : Nat := eventFlag .GSOCK_OUTPUT

/-- The constant `GSOCK_CONNECTION_FLAG = 1 << GSOCK_CONNECTION`. -/
def GSOCK_CONNECTION_FLAG : Nat := eventFlag .GSOCK_CONNECTION

/-- The constant `GSOCK_LOST_FLAG = 1 << GSOCK_LOST`. -/
def GSOCK_LOST_FLAG : Nat := eventFlag .GSOCK_LOST

/-- The C `typedef int GSocketEventFlags`: a flags value holding any subset of the
four event bits.  We represent the non-negative flag values as `Nat`. -/
def GSocketEventFlags := Nat

/-- Build a `GSocketEventFlags` value from an enabled-set of event types, by
or-ing the corresponding flag constants (the way callers of the flags enum
combine them). -/
def flagsOfSet (s : GSocketEvent → Bool) : Nat :=
  (if s .GSOCK_INPUT then GSOCK_INPUT_FLAG else 0) |||
  (if s .GSOCK_OUTPUT then GSOCK_OUTPUT_FLAG else 0) |||
  (if s .GSOCK_CONNECTION then GSOCK_CONNECTION_FLAG else 0) |||
  (if s .GSOCK_LOST then GSOCK_LOST_FLAG else 0)

/-- The list of all eleven members of the `GSocketError` enumeration, in
source order. -/
def allGSocketErrors : List GSocketError :=
  [.GSOCK_NOERROR, .GSOCK_INVOP, .GSOCK_IOERR, .GSOCK_INVADDR, .GSOCK_INVSOCK,
   .GSOCK_NOHOST, .GSOCK_INVPORT, .GSOCK_WOULDBLOCK, .GSOCK_TIMEDOUT,
   .GSOCK_MEMERR, .GSOCK_OPTERR]

/-- An abstract handle to a concrete `GSocketManager` object.  The manager is
a polymorphic interface; for the singleton selection logic only the identity
of the pointed-to object matters, so we model a non-null manager pointer by
a handle value. -/
structure GSocketManagerHandle where
  ident : Nat
deriving DecidableEq, Repr

/-- The process-wide singleton state of `GSocketManager`: the static
`ms_manager` pointer (include/wx/gsocket.h:155), `none` modelling null. -/
structure ManagerState where
  ms_manager : Option GSocketManagerHandle
deriving DecidableEq, Repr

/-- Modelled from the spec: `wxAppTraits::GetSocketManager` (declared at
include/wx/unix/apptbase.h:56; its body lives outside the sampled sources)
returns the build-appropriate default manager — GUI-integrated when a GUI
runtime is present, the select()-based console manager otherwise.  For a
fixed build this is one fixed non-null manager, modelled as a fixed
handle. -/
def wxAppTraits_GetSocketManager : GSocketManagerHandle := { ident := 1 }

/-- Modelled from the spec: the private `GSocketManager::Init` (declared at
include/wx/gsocket.h:153; its body lives outside the sampled sources)
obtains the default manager from the build-appropriate app traits and
stores it in `ms_manager`. -/
def GSocketManager_Init (_s : ManagerState) : ManagerState :=
  { ms_manager := some wxAppTraits_GetSocketManager }

/-- The method `GSocketManager::Set` from include/wx/gsocket.h:115: store the
caller-supplied manager in `ms_manager` (no ownership taken). -/
def GSocketManager_Set (manager : GSocketManagerHandle) (_s : ManagerState) :
    ManagerState :=
  { ms_manager := some manager }

/-- The method `GSocketManager::Get` from include/wx/gsocket.h lines 120-126:
`if ( !ms_manager ) Init(); return ms_manager;` — returns the manager
together with the possibly-updated singleton state. -/
def GSocketManager_Get (s : ManagerState) :
    Option GSocketManagerHandle × ManagerState :=
  let s' := if s.ms_manager = none then GSocketManager_Init s else s
  (s'.ms_manager, s')

/-- The singleton state after `n` successive calls to `GSocketManager::Get`
starting from `s`. -/
def stateAfterGets (s : ManagerState) : Nat → ManagerState
  | 0 => s
  | n + 1 => (GSocketManager_Get (stateAfterGets s n)).2

/-- Modelled from the spec: the `_GAddress` record (defined in the platform
gsocket implementation files, outside the sampled sources).  Per spec §3 an
Address holds a family tag, a host representation, a port, and for
local-domain addresses a filesystem path.  IPv4 hosts are 32-bit numbers
(the `unsigned long` argument reduced to the address width), IPv6 hosts are
modelled by the numeric value of the 128-bit `in6_addr`, ports are 16-bit
numbers and paths are character lists. -/
structure GAddress where
  m_family : GAddressType
  inetHost : Nat
  inetPort : Nat
  inet6Host : Nat
  inet6Port : Nat
  unixPath : List Char
deriving DecidableEq, Repr

/-- The constructor `GAddress_new` (declared at include/wx/gsocket.h:182): a fresh address
with no family and zeroed fields. -/
def GAddress_new : GAddress :=
  { m_family := .GSOCK_NOFAMILY, inetHost := 0, inetPort := 0,
    inet6Host := 0, inet6Port := 0, unixPath := [] }

/-- The getter `GAddress_GetFamily` (declared at include/wx/gsocket.h:187): read the
family tag. -/
def GAddress_GetFamily (a : GAddress) : GAddressType := a.m_family

/-- Modelled from the spec (§4.1 contract and the comment at
include/wx/gsocket.h:189-192): the family check performed on entry by every
family-specific Address operation.  If the family tag is unset it is pinned
to the operation's family; if it already holds a different family the
operation fails; otherwise the address passes through unchanged. -/
def familyCheck (a : GAddress) (fam : GAddressType) : Option GAddress :=
  if a.m_family = .GSOCK_NOFAMILY then some { a with m_family := fam }
  else if a.m_family = fam then some a
  else none

/-- The IPv4 limited-broadcast address 255.255.255.255 (INADDR_BROADCAST). -/
def INADDR_BROADCAST : Nat := 2 ^ 32 - 1

/-- The IPv4 wildcard address 0.0.0.0 (INADDR_ANY). -/
def INADDR_ANY : Nat := 0

/-- Modelled from the spec: `GAddress_INET_SetHostName` (declared at
include/wx/gsocket.h:194; its body lives in the platform gsocket.cpp files
outside the sampled sources).  Pins the family to INET, resolves the host
name through the caller-supplied resolver and stores the 32-bit host; a
failed resolution is host-not-found (§4.1). -/
def GAddress_INET_SetHostName (resolve : List Char → Option Nat)
    (a : GAddress) (hostname : List Char) : GSocketError × GAddress :=
  match familyCheck a .GSOCK_INET with
  | none => (.GSOCK_INVADDR, a)
  | some a' =>
      match resolve hostname with
      | none => (.GSOCK_NOHOST, a')
      | some h => (.GSOCK_NOERROR, { a' with inetHost := h % 2 ^ 32 })

/-- Modelled from the spec: `GAddress_INET_SetBroadcastAddress` (declared at
include/wx/gsocket.h:195; body outside the sampled sources): pin family to
INET and store the broadcast host. -/
def GAddress_INET_SetBroadcastAddress (a : GAddress) : GSocketError × GAddress :=
  match familyCheck a .GSOCK_INET with
  | none => (.GSOCK_INVADDR, a)
  | some a' => (.GSOCK_NOERROR, { a' with inetHost := INADDR_BROADCAST })

/-- Modelled from the spec: `GAddress_INET_SetAnyAddress` (declared at
include/wx/gsocket.h:196; body outside the sampled sources): pin family to
INET and store the wildcard host. -/
def GAddress_INET_SetAnyAddress (a : GAddress) : GSocketError × GAddress :=
  match familyCheck a .GSOCK_INET with
  | none => (.GSOCK_INVADDR, a)
  | some a' => (.GSOCK_NOERROR, { a' with inetHost := INADDR_ANY })

/-- Modelled from the spec: `GAddress_INET_SetHostAddress` (declared at
include/wx/gsocket.h:197; body outside the sampled sources): pin family to
INET and store the numeric 32-bit host. -/
def GAddress_INET_SetHostAddress (a : GAddress) (hostaddr : Nat) :
    GSocketError × GAddress :=
  match familyCheck a .GSOCK_INET with
  | none => (.GSOCK_INVADDR, a)
  | some a' => (.GSOCK_NOERROR, { a' with inetHost := hostaddr % 2 ^ 32 })

/-- Modelled from the spec: `GAddress_INET_SetPortName` (declared at
include/wx/gsocket.h:199; body outside the sampled sources): pin family to
INET, look the service name up with the given protocol and store the port;
a failed lookup is invalid-port (§4.1). -/
def GAddress_INET_SetPortName
    (lookupService : List Char → List Char → Option Nat)
    (a : GAddress) (port protocol : List Char) : GSocketError × GAddress :=
  match familyCheck a .GSOCK_INET with
  | none => (.GSOCK_INVADDR, a)
  | some a' =>
      match lookupService port protocol with
      | none => (.GSOCK_INVPORT, a')
      | some p => (.GSOCK_NOERROR, { a' with inetPort := p % 2 ^ 16 })

/-- Modelled from the spec: `GAddress_INET_SetPort` (declared at
include/wx/gsocket.h:201; body outside the sampled sources): pin family to
INET and store the 16-bit port. -/
def GAddress_INET_SetPort (a : GAddress) (port : Nat) :
    GSocketError × GAddress :=
  match familyCheck a .GSOCK_INET with
  | none => (.GSOCK_INVADDR, a)
  | some a' => (.GSOCK_NOERROR, { a' with inetPort := port % 2 ^ 16 })

/-- Modelled from the spec: `GAddress_INET6_SetHostName` (declared at
include/wx/gsocket.h:210; body outside the sampled sources): the IPv6
counterpart of `GAddress_INET_SetHostName`. -/
def GAddress_INET6_SetHostName (resolve : List Char → Option Nat)
    (a : GAddress) (hostname : List Char) : GSocketError × GAddress :=
  match familyCheck a .GSOCK_INET6 with
  | none => (.GSOCK_INVADDR, a)
  | some a' =>
      match resolve hostname with
      | none => (.GSOCK_NOHOST, a')
      | some h => (.GSOCK_NOERROR, { a' with inet6Host := h % 2 ^ 128 })

/-- Modelled from the spec: `GAddress_INET6_SetAnyAddress` (declared at
include/wx/gsocket.h:211; body outside the sampled sources). -/
def GAddress_INET6_SetAnyAddress (a : GAddress) : GSocketError × GAddress :=
  match familyCheck a .GSOCK_INET6 with
  | none => (.GSOCK_INVADDR, a)
  | some a' => (.GSOCK_NOERROR, { a' with inet6Host := 0 })

/-- Modelled from the spec: `GAddress_INET6_SetHostAddress` (declared at
include/wx/gsocket.h:212; body outside the sampled sources): pin family to
INET6 and store the 128-bit host. -/
def GAddress_INET6_SetHostAddress (a : GAddress) (hostaddr : Nat) :
    GSocketError × GAddress :=
  match familyCheck a .GSOCK_INET6 with
  | none => (.GSOCK_INVADDR, a)
  | some a' => (.GSOCK_NOERROR, { a' with inet6Host := hostaddr % 2 ^ 128 })

/-- Modelled from the spec: `GAddress_INET6_SetPortName` (declared at
include/wx/gsocket.h:214; body outside the sampled sources). -/
def GAddress_INET6_SetPortName
    (lookupService : List Char → List Char → Option Nat)
    (a : GAddress) (port protocol : List Char) : GSocketError × GAddress :=
  match familyCheck a .GSOCK_INET6 with
  | none => (.GSOCK_INVADDR, a)
  | some a' =>
      match lookupService port protocol with
      | none => (.GSOCK_INVPORT, a')
      | some p => (.GSOCK_NOERROR, { a' with inet6Port := p % 2 ^ 16 })

/-- Modelled from the spec: `GAddress_INET6_SetPort` (declared at
include/wx/gsocket.h:216; body outside the sampled sources). -/
def GAddress_INET6_SetPort (a : GAddress) (port : Nat) :
    GSocketError × GAddress :=
  match familyCheck a .GSOCK_INET6 with
  | none => (.GSOCK_INVADDR, a)
  | some a' => (.GSOCK_NOERROR, { a' with inet6Port := port % 2 ^ 16 })

/-- Modelled from the spec: `GAddress_UNIX_SetPath` (declared at
include/wx/gsocket.h:227; body outside the sampled sources): pin family to
UNIX and store the filesystem path. -/
def GAddress_UNIX_SetPath (a : GAddress) (path : List Char) :
    GSocketError × GAddress :=
  match familyCheck a .GSOCK_UNIX with
  | none => (.GSOCK_INVADDR, a)
  | some a' => (.GSOCK_NOERROR, { a' with unixPath := path })

/-- Modelled from the spec: `GAddress_INET_GetHostAddress` (declared at
include/wx/gsocket.h:205; body outside the sampled sources): fails with
invalid-address when the family does not match (§4.1), else returns the
stored numeric host. -/
def GAddress_INET_GetHostAddress (a : GAddress) : Except GSocketError Nat :=
  if a.m_family = .GSOCK_INET then .ok a.inetHost else .error .GSOCK_INVADDR

/-- Modelled from the spec: `GAddress_INET_GetPort` (declared at
include/wx/gsocket.h:206; body outside the sampled sources). -/
def GAddress_INET_GetPort (a : GAddress) : Except GSocketError Nat :=
  if a.m_family = .GSOCK_INET then .ok a.inetPort else .error .GSOCK_INVADDR

/-- Modelled from the spec: `GAddress_INET6_GetPort` (declared at
include/wx/gsocket.h:221; body outside the sampled sources). -/
def GAddress_INET6_GetPort (a : GAddress) : Except GSocketError Nat :=
  if a.m_family = .GSOCK_INET6 then .ok a.inet6Port else .error .GSOCK_INVADDR

/-- Copy C-string `s` and its terminating NUL into the front of buffer
`buf`, leaving every byte past position `s.length + 1` untouched. -/
def writeCString (s buf : List Char) : List Char :=
  (s ++ [Char.ofNat 0]) ++ buf.drop (s.length + 1)

/-- Modelled from the spec (§4.1, §9): the common tail of the buffer-based
getters.  The produced string and its NUL are copied into the caller's
buffer when they fit in the stated capacity `sbuf`; otherwise the call
fails and the buffer is left untouched (the untouched-on-failure choice the
spec fixes for the contract). -/
def copyToBuffer (s buf : List Char) (sbuf : Nat) : GSocketError × List Char :=
  if s.length + 1 ≤ sbuf then (.GSOCK_NOERROR, writeCString s buf)
  else (.GSOCK_MEMERR, buf)

/-- Modelled from the spec: `GAddress_INET_GetHostName` (declared at
include/wx/gsocket.h:203; body outside the sampled sources): reverse-look
the stored host up through the caller-supplied resolver and copy the name
into the buffer of capacity `sbuf`; fails with invalid-address on a family
mismatch and host-not-found on a failed lookup. -/
def GAddress_INET_GetHostName (revLookup : Nat → Option (List Char))
    (a : GAddress) (buf : List Char) (sbuf : Nat) : GSocketError × List Char :=
  if a.m_family = .GSOCK_INET then
    match revLookup a.inetHost with
    | none => (.GSOCK_NOHOST, buf)
    | some s => copyToBuffer s buf sbuf
  else (.GSOCK_INVADDR, buf)

/-- Modelled from the spec: `GAddress_INET6_GetHostName` (declared at
include/wx/gsocket.h:218; body outside the sampled sources). -/
def GAddress_INET6_GetHostName (revLookup : Nat → Option (List Char))
    (a : GAddress) (buf : List Char) (sbuf : Nat) : GSocketError × List Char :=
  if a.m_family = .GSOCK_INET6 then
    match revLookup a.inet6Host with
    | none => (.GSOCK_NOHOST, buf)
    | some s => copyToBuffer s buf sbuf
  else (.GSOCK_INVADDR, buf)

/-- Modelled from the spec: `GAddress_UNIX_GetPath` (declared at
include/wx/gsocket.h:228; body outside the sampled sources): copy the
stored path into the buffer of capacity `sbuf`; fails with invalid-address
on a family mismatch. -/
def GAddress_UNIX_GetPath (a : GAddress) (buf : List Char) (sbuf : Nat) :
    GSocketError × List Char :=
  if a.m_family = .GSOCK_UNIX then copyToBuffer a.unixPath buf sbuf
  else (.GSOCK_INVADDR, buf)

/-- The family-specific Address setters declared at
include/wx/gsocket.h:194-228, packaged with their arguments so the pinning
contract can be stated uniformly over all of them.  Constructors carrying a
resolver function model the setters that trigger name or service
resolution. -/
inductive FamilySetter where
  | inetHostName (resolve : List Char → Option Nat) (hostname : List Char)
  | inetBroadcastAddress
  | inetAnyAddress
  | inetHostAddress (hostaddr : Nat)
  | inetPortName (lookupService : List Char → List Char → Option Nat)
      (port protocol : List Char)
  | inetPort (port : Nat)
  | inet6HostName (resolve : List Char → Option Nat) (hostname : List Char)
  | inet6AnyAddress
  | inet6HostAddress (hostaddr : Nat)
  | inet6PortName (lookupService : List Char → List Char → Option Nat)
      (port protocol : List Char)
  | inet6Port (port : Nat)
  | unixPath (path : List Char)

/-- The address family each family-specific setter belongs to. -/
def FamilySetter.family : FamilySetter → GAddressType
  | .inetHostName .. | .inetBroadcastAddress | .inetAnyAddress
  | .inetHostAddress .. | .inetPortName .. | .inetPort .. => .GSOCK_INET
  | .inet6HostName .. | .inet6AnyAddress | .inet6HostAddress ..
  | .inet6PortName .. | .inet6Port .. => .GSOCK_INET6
  | .unixPath .. => .GSOCK_UNIX

/-- Apply a family-specific setter to an address. -/
def FamilySetter.run : FamilySetter → GAddress → GSocketError × GAddress
  | .inetHostName resolve hostname, a =>
      GAddress_INET_SetHostName resolve a hostname
  | .inetBroadcastAddress, a => GAddress_INET_SetBroadcastAddress a
  | .inetAnyAddress, a => GAddress_INET_SetAnyAddress a
  | .inetHostAddress hostaddr, a => GAddress_INET_SetHostAddress a hostaddr
  | .inetPortName lookupService port protocol, a =>
      GAddress_INET_SetPortName lookupService a port protocol
  | .inetPort port, a => GAddress_INET_SetPort a port
  | .inet6HostName resolve hostname, a =>
      GAddress_INET6_SetHostName resolve a hostname
  | .inet6AnyAddress, a => GAddress_INET6_SetAnyAddress a
  | .inet6HostAddress hostaddr, a => GAddress_INET6_SetHostAddress a hostaddr
  | .inet6PortName lookupService port protocol, a =>
      GAddress_INET6_SetPortName lookupService a port protocol
  | .inet6Port port, a => GAddress_INET6_SetPort a port
  | .unixPath path, a => GAddress_UNIX_SetPath a path

/-- Lifecycle states of a Socket per the spec §4.2 state machine. -/
inductive GSocketLifeState where
  | Unallocated
  | Bound
  | Connecting
  | Listening
  | Connected
  | Closed
deriving DecidableEq, Repr

/-- Modelled from the spec: the GSocket record (the class is defined in the
platform headers gsockunx.h/gsockmsw.h, outside the sampled sources).
Fields per spec §3: descriptor or unallocated sentinel, stream mode,
lifecycle state, last error, non-blocking flag and timeout, a single
callback pointer with its one user-data pointer, and the per-event-type
enabled bits.  Callback pointers are modelled by their identity. -/
structure GSocket where
  m_fd : Option Nat
  m_stream : GSocketStream
  m_state : GSocketLifeState
  m_error : GSocketError
  m_non_blocking : Bool
  m_timeout : Nat
  m_cback : Option Nat
  m_data : Nat
  m_enabled : GSocketEvent → Bool

/-- The callbacks registered on a socket: the contents of the single
`m_cback` field, hence a list of at most one element. -/
def registeredCallbacks (sock : GSocket) : List Nat := sock.m_cback.toList

/-- One delivered callback invocation: the callback identity, the event type
it was invoked with and the user data it was passed. -/
structure CallbackInvocation where
  cback : Nat
  event : GSocketEvent
  data : Nat
deriving DecidableEq, Repr

/-- Modelled from the spec (§4.2 event dispatch contract; hooks
`Install_Callback`/`Uninstall_Callback` at include/wx/gsocket.h:143-144):
when the manager detects readiness condition `ev` on `sock`, the single
registered callback is invoked with that event and the socket's user data
only if the event type's enabled bit is set and a callback is registered;
otherwise nothing is invoked. -/
def dispatchEvent (sock : GSocket) (ev : GSocketEvent) :
    Option CallbackInvocation :=
  if sock.m_enabled ev then
    sock.m_cback.map (fun cb => { cback := cb, event := ev, data := sock.m_data })
  else none

/-- The invocations delivered when the manager observes a sequence of
readiness conditions on a socket whose enabled set is held fixed. -/
def dispatchTrace (sock : GSocket) (conds : List GSocketEvent) :
    List CallbackInvocation :=
  conds.filterMap (dispatchEvent sock)

/-- Modelled from the spec (§4.2 "Any state → Closed: explicit close"):
closing releases the descriptor and moves the socket to the Closed state. -/
def GSocket_Close (sock : GSocket) : GSocket :=
  { sock with m_state := .Closed, m_fd := none }

/-- Modelled from the spec (§4.2 "Any state → Closed: ... a lost-connection
event"): a lost-connection event also moves the socket to the Closed
state. -/
def GSocket_OnLostConnection (sock : GSocket) : GSocket :=
  { sock with m_state := .Closed, m_fd := none }

/-- Modelled from the spec: the receive operation `GSocket::Read` (body in
the platform gsocket.cpp files outside the sampled sources).  `avail`
models the bytes the OS can currently deliver.  On a closed or unallocated
socket the call fails with invalid-socket (§4.2); a non-blocking receive
with no available data fails with would-block, a blocking one whose timeout
elapses fails with timed-out (§4.2 I/O operations); otherwise
min(size, available) bytes are copied into the front of the caller's
buffer.  Returns (error, socket, buffer contents, bytes transferred). -/
def GSocket_Read (sock : GSocket) (avail : List Nat) (buf : List Nat)
    (size : Nat) : GSocketError × GSocket × List Nat × Nat :=
  if sock.m_state = .Closed ∨ sock.m_fd = none then
    (.GSOCK_INVSOCK, { sock with m_error := .GSOCK_INVSOCK }, buf, 0)
  else if avail.isEmpty then
    if sock.m_non_blocking then
      (.GSOCK_WOULDBLOCK, { sock with m_error := .GSOCK_WOULDBLOCK }, buf, 0)
    else
      (.GSOCK_TIMEDOUT, { sock with m_error := .GSOCK_TIMEDOUT }, buf, 0)
  else
    let n := min size avail.length
    (.GSOCK_NOERROR, { sock with m_error := .GSOCK_NOERROR },
      avail.take n ++ buf.drop n, n)

/-- Modelled from the spec: the send operation `GSocket::Write` (body in the
platform gsocket.cpp files outside the sampled sources).  `space` models
the bytes the OS will currently accept.  On a closed or unallocated socket
the call fails with invalid-socket (§4.2); with no space a non-blocking
send fails with would-block and a blocking one with timed-out; otherwise
min(size, space) bytes are accepted.  Returns (error, socket, bytes
transferred). -/
def GSocket_Write (sock : GSocket) (space : Nat) (size : Nat) :
    GSocketError × GSocket × Nat :=
  if sock.m_state = .Closed ∨ sock.m_fd = none then
    (.GSOCK_INVSOCK, { sock with m_error := .GSOCK_INVSOCK }, 0)
  else if space = 0 then
    if sock.m_non_blocking then
      (.GSOCK_WOULDBLOCK, { sock with m_error := .GSOCK_WOULDBLOCK }, 0)
    else
      (.GSOCK_TIMEDOUT, { sock with m_error := .GSOCK_TIMEDOUT }, 0)
  else
    (.GSOCK_NOERROR, { sock with m_error := .GSOCK_NOERROR }, min size space)

/-- A concrete connected socket used to exercise the dispatch and I/O
contracts on explicit inputs: callback 7 with user data 42 registered, and
only the input-ready event enabled. -/
def sampleInputOnlySocket : GSocket :=
  { m_fd := some 3, m_stream := .GSOCK_STREAMED, m_state := .Connected,
    m_error := .GSOCK_NOERROR, m_non_blocking := true, m_timeout := 10000,
    m_cback := some 7, m_data := 42,
    m_enabled := fun e => e == .GSOCK_INPUT }

/-- A concrete address pinned to the IPv4 family (host 127.0.0.1, port 80):
exercises the family-pinning contract on an explicit input. -/
def sampleInetAddress : GAddress :=
  { m_family := .GSOCK_INET, inetHost := 2130706433, inetPort := 80,
    inet6Host := 0, inet6Port := 0, unixPath := [] }

/-- A concrete closed socket: exercises the closed-state I/O contract on an
explicit input. -/
def sampleClosedSocket : GSocket :=
  { m_fd := none, m_stream := .GSOCK_STREAMED, m_state := .Closed,
    m_error := .GSOCK_NOERROR, m_non_blocking := false, m_timeout := 10000,
    m_cback := none, m_data := 0, m_enabled := fun _ => false }

end WxGSocket

namespace WxSettings

/-!  Embedding of `wxSystemSettings::GetSystemMetric` from
src/motif/settings.cpp.  The `wxSYS_*` index constants come from
wx/settings.h, which is outside the sampled sources; the values below follow
the order of the wxSystemMetric enumeration starting at 1.  The function's
result does not depend on these values: in the source every listed `case`
label falls through (each carries only a `// TODO` comment) to the `default`
branch, which assigns `return_metric = 0`. -/

def wxSYS_MOUSE_BUTTONS : Int := 1
def wxSYS_BORDER_X : Int := 2
def wxSYS_BORDER_Y : Int := 3
def wxSYS_CURSOR_X : Int := 4
def wxSYS_CURSOR_Y : Int := 5
def wxSYS_DCLICK_X : Int := 6
def wxSYS_DCLICK_Y : Int := 7
def wxSYS_DRAG_X : Int := 8
def wxSYS_DRAG_Y : Int := 9
def wxSYS_EDGE_X : Int := 10
def wxSYS_EDGE_Y : Int := 11
def wxSYS_HSCROLL_ARROW_X : Int := 12
def wxSYS_HSCROLL_ARROW_Y : Int := 13
def wxSYS_HTHUMB_X : Int := 14
def wxSYS_ICON_X : Int := 15
def wxSYS_ICON_Y : Int := 16
def wxSYS_ICONSPACING_X : Int := 17
def wxSYS_ICONSPACING_Y : Int := 18
def wxSYS_WINDOWMIN_X : Int := 19
def wxSYS_WINDOWMIN_Y : Int := 20
def wxSYS_SCREEN_X : Int := 21
def wxSYS_SCREEN_Y : Int := 22
def wxSYS_FRAMESIZE_X : Int := 23
def wxSYS_FRAMESIZE_Y : Int := 24
def wxSYS_SMALLICON_X : Int := 25
def wxSYS_SMALLICON_Y : Int := 26
def wxSYS_HSCROLL_Y : Int := 27
def wxSYS_VSCROLL_X : Int := 28
def wxSYS_VSCROLL_ARROW_X : Int := 29
def wxSYS_VSCROLL_ARROW_Y : Int := 30
def wxSYS_VTHUMB_Y : Int := 31
def wxSYS_CAPTION_Y : Int := 32
def wxSYS_MENU_Y : Int := 33
def wxSYS_NETWORK_PRESENT : Int := 34
def wxSYS_PENWINDOWS_PRESENT : Int := 35
def wxSYS_SHOW_SOUNDS : Int := 36
def wxSYS_SWAP_BUTTONS : Int := 37

/-- The method `wxSystemSettings::GetSystemMetric` from src/motif/settings.cpp:
`int return_metric = 0;` then a `switch (index)` in which every listed case
falls through to `default: return_metric = 0;`, and `return return_metric;`.
Since case labels without statements fall through in C++, each listed index
reaches the default assignment, as does any unlisted index. -/
def GetSystemMetric (index : Int) : Int :=
  if index = wxSYS_MOUSE_BUTTONS then 0
  else if index = wxSYS_BORDER_X then 0
  else if index = wxSYS_BORDER_Y then 0
  else if index = wxSYS_CURSOR_X then 0
  else if index = wxSYS_CURSOR_Y then 0
  else if index = wxSYS_DCLICK_X then 0
  else if index = wxSYS_DCLICK_Y then 0
  else if index = wxSYS_DRAG_X then 0
  else if index = wxSYS_DRAG_Y then 0
  else if index = wxSYS_EDGE_X then 0
  else if index = wxSYS_EDGE_Y then 0
  else if index = wxSYS_HSCROLL_ARROW_X then 0
  else if index = wxSYS_HSCROLL_ARROW_Y then 0
  else if index = wxSYS_HTHUMB_X then 0
  else if index = wxSYS_ICON_X then 0
  else if index = wxSYS_ICON_Y then 0
  else if index = wxSYS_ICONSPACING_X then 0
  else if index = wxSYS_ICONSPACING_Y then 0
  else if index = wxSYS_WINDOWMIN_X then 0
  else if index = wxSYS_WINDOWMIN_Y then 0
  else if index = wxSYS_SCREEN_X then 0
  else if index = wxSYS_SCREEN_Y then 0
  else if index = wxSYS_FRAMESIZE_X then 0
  else if index = wxSYS_FRAMESIZE_Y then 0
  else if index = wxSYS_SMALLICON_X then 0
  else if index = wxSYS_SMALLICON_Y then 0
  else if index = wxSYS_HSCROLL_Y then 0
  else if index = wxSYS_VSCROLL_X then 0
  else if index = wxSYS_VSCROLL_ARROW_X then 0
  else if index = wxSYS_VSCROLL_ARROW_Y then 0
  else if index = wxSYS_VTHUMB_Y then 0
  else if index = wxSYS_CAPTION_Y then 0
  else if index = wxSYS_MENU_Y then 0
  else if index = wxSYS_NETWORK_PRESENT then 0
  else if index = wxSYS_PENWINDOWS_PRESENT then 0
  else if index = wxSYS_SHOW_SOUNDS then 0
  else if index = wxSYS_SWAP_BUTTONS then 0
  else 0

end WxSettings

namespace WxGSocket

/-- C10: the four event-flag constants satisfy `flag = 1 << event`
(values 1, 2, 4, 8), are pairwise disjoint bits, any subset of the four
event types is representable in one flags value (bit `e.code` of
`flagsOfSet s` is exactly `s e`), and or-ing in one event's flag never
alters the bit of another event. -/
theorem event_flags_shifted_disjoint_representable :
    (GSOCK_INPUT_FLAG = 1 ∧ GSOCK_OUTPUT_FLAG = 2 ∧
     GSOCK_CONNECTION_FLAG = 4 ∧ GSOCK_LOST_FLAG = 8) ∧
    (∀ e : GSocketEvent, eventFlag e = 1 <<< e.code) ∧
    (∀ e e' : GSocketEvent, e ≠ e' → eventFlag e &&& eventFlag e' = 0) ∧
    (∀ s : GSocketEvent → Bool, ∀ e : GSocketEvent,
      Nat.testBit (flagsOfSet s) e.code = s e) ∧
    (∀ f : Nat, ∀ e e' : GSocketEvent, e ≠ e' →
      Nat.testBit (f ||| eventFlag e) e'.code = Nat.testBit f e'.code) := by
  refine ⟨by decide, by decide, by decide, by decide, ?_⟩
  intro f e e' hne
  have hcode : e.code ≠ e'.code := by
    revert hne
    revert e e'
    decide
  have hflag : Nat.testBit (eventFlag e) e'.code = false := by
    have : eventFlag e = 2 ^ e.code := by
      cases e <;> rfl
    rw [this, Nat.testBit_two_pow]
    simp [hcode]
  rw [Nat.testBit_lor, hflag, Bool.or_false]

/-- Witness for C10 at concrete inputs: input-ready and output-ready are
distinct event types with disjoint flag bits, and or-ing the input flag
into the flags value 5 leaves the output bit unchanged. -/
theorem event_flags_witness :
    (GSocketEvent.GSOCK_INPUT ≠ GSocketEvent.GSOCK_OUTPUT) ∧
    eventFlag .GSOCK_INPUT &&& eventFlag .GSOCK_OUTPUT = 0 ∧
    Nat.testBit (5 ||| eventFlag .GSOCK_INPUT)
        GSocketEvent.GSOCK_OUTPUT.code =
      Nat.testBit 5 GSocketEvent.GSOCK_OUTPUT.code :=
  ⟨by decide,
   event_flags_shifted_disjoint_representable.2.2.1 .GSOCK_INPUT .GSOCK_OUTPUT
     (by decide),
   event_flags_shifted_disjoint_representable.2.2.2.2 5 .GSOCK_INPUT
     .GSOCK_OUTPUT (by decide)⟩

/-- C9: `wxSystemSettings::GetSystemMetric` is the constant function 0 over
its whole input domain: every listed case falls through to the default
branch, which yields 0. -/
theorem getSystemMetric_eq_zero (index : Int) :
    WxSettings.GetSystemMetric index = 0 := by
  unfold WxSettings.GetSystemMetric
  simp only [ite_self]

/-- C1: with no manager explicitly set (a null `ms_manager`), the first call
to `GSocketManager::Get` initializes the default manager obtained from the
app traits and returns it non-null; every call after the first returns that
same manager and leaves the singleton state unchanged. -/
theorem managerGet_lazy_singleton (s0 : ManagerState)
    (h : s0.ms_manager = none) :
    (GSocketManager_Get s0).1 = some wxAppTraits_GetSocketManager ∧
    (GSocketManager_Get s0).1 ≠ none ∧
    (∀ n : Nat,
      GSocketManager_Get (stateAfterGets s0 (n + 1)) =
        ((GSocketManager_Get s0).1, (GSocketManager_Get s0).2)) := by
  have hget : GSocketManager_Get s0 =
      (some wxAppTraits_GetSocketManager,
       { ms_manager := some wxAppTraits_GetSocketManager }) := by
    simp [GSocketManager_Get, h, GSocketManager_Init]
  have hstate : ∀ n, stateAfterGets s0 (n + 1) =
      { ms_manager := some wxAppTraits_GetSocketManager } := by
    intro n
    induction n with
    | zero => simp [stateAfterGets, hget]
    | succ k ih =>
        rw [stateAfterGets, ih]
        simp [GSocketManager_Get]
  refine ⟨by rw [hget], by rw [hget]; exact Option.some_ne_none _, ?_⟩
  intro n
  rw [hstate n, hget]
  simp [GSocketManager_Get]

/-- Witness for C1: at the concrete never-set initial state, the first Get
returns the traits-provided manager and the call after two further Gets
still returns the same manager with the state unchanged. -/
theorem managerGet_lazy_singleton_witness :
    ({ ms_manager := none } : ManagerState).ms_manager = none ∧
    (GSocketManager_Get { ms_manager := none }).1 =
      some wxAppTraits_GetSocketManager ∧
    GSocketManager_Get (stateAfterGets { ms_manager := none } 2) =
      ((GSocketManager_Get { ms_manager := none }).1,
       (GSocketManager_Get { ms_manager := none }).2) :=
  ⟨rfl,
   (managerGet_lazy_singleton { ms_manager := none } rfl).1,
   (managerGet_lazy_singleton { ms_manager := none } rfl).2.2 1⟩

/-- C2: every family-specific Address setter pins an unset family tag to its
own family; applied to an address already pinned to a different family it
fails with the invalid-address error and returns the address with every
field, including the family tag, unchanged. -/
theorem setter_family_pinning (s : FamilySetter) (a : GAddress) :
    (a.m_family = .GSOCK_NOFAMILY → ((s.run a).2).m_family = s.family) ∧
    (a.m_family ≠ .GSOCK_NOFAMILY → a.m_family ≠ s.family →
      s.run a = (.GSOCK_INVADDR, a)) := by
  constructor
  · intro h
    cases s <;>
      simp only [FamilySetter.run, FamilySetter.family,
        GAddress_INET_SetHostName, GAddress_INET_SetBroadcastAddress,
        GAddress_INET_SetAnyAddress, GAddress_INET_SetHostAddress,
        GAddress_INET_SetPortName, GAddress_INET_SetPort,
        GAddress_INET6_SetHostName, GAddress_INET6_SetAnyAddress,
        GAddress_INET6_SetHostAddress, GAddress_INET6_SetPortName,
        GAddress_INET6_SetPort, GAddress_UNIX_SetPath] <;>
      simp only [familyCheck, h, if_true, reduceIte] <;>
      (try split) <;> rfl
  · intro h1 h2
    cases s <;>
      simp only [FamilySetter.family] at h2 <;>
      simp only [FamilySetter.run,
        GAddress_INET_SetHostName, GAddress_INET_SetBroadcastAddress,
        GAddress_INET_SetAnyAddress, GAddress_INET_SetHostAddress,
        GAddress_INET_SetPortName, GAddress_INET_SetPort,
        GAddress_INET6_SetHostName, GAddress_INET6_SetAnyAddress,
        GAddress_INET6_SetHostAddress, GAddress_INET6_SetPortName,
        GAddress_INET6_SetPort, GAddress_UNIX_SetPath] <;>
      simp [familyCheck, h1, h2]

/-- Witness for C2: the IPv6 port setter pins a fresh address's family to
IPv6, and applied to an address already pinned to IPv4 it fails with
invalid-address returning the address unchanged. -/
theorem setter_family_pinning_witness :
    (GAddress_new.m_family = .GSOCK_NOFAMILY ∧
     (((FamilySetter.inet6Port 80).run GAddress_new).2).m_family =
       (FamilySetter.inet6Port 80).family) ∧
    (sampleInetAddress.m_family ≠ .GSOCK_NOFAMILY ∧
     sampleInetAddress.m_family ≠ (FamilySetter.inet6Port 80).family ∧
     (FamilySetter.inet6Port 80).run sampleInetAddress =
       (.GSOCK_INVADDR, sampleInetAddress)) :=
  ⟨⟨rfl,
    (setter_family_pinning (FamilySetter.inet6Port 80) GAddress_new).1 rfl⟩,
   ⟨by decide, by decide,
    (setter_family_pinning (FamilySetter.inet6Port 80) sampleInetAddress).2
      (by decide) (by decide)⟩⟩

/-- If the dispatcher delivered an invocation for condition `c`, then the
enabled bit of `c` was set and the invocation carries event `c`. -/
theorem dispatchEvent_some {sock : GSocket} {c : GSocketEvent}
    {inv : CallbackInvocation} (h : dispatchEvent sock c = some inv) :
    sock.m_enabled c = true ∧ inv.event = c := by
  unfold dispatchEvent at h
  rcases he : sock.m_enabled c with _ | _
  · rw [he] at h
    simp at h
  · rw [he] at h
    rcases hc : sock.m_cback with _ | cb
    · rw [hc] at h
      simp at h
    · rw [hc] at h
      have h' : some ({ cback := cb, event := c, data := sock.m_data } :
          CallbackInvocation) = some inv := h
      have heq := Option.some.inj h'
      exact ⟨rfl, by rw [← heq]⟩

/-- C3: at most one callback is registered on a socket at any time (the
single `m_cback` slot), every invocation delivered over a sequence of
observed readiness conditions carries an event whose enabled bit is set,
and an event type whose enabled bit is cleared never reaches the callback
even when its readiness condition occurs. -/
theorem single_callback_disabled_events_silent (sock : GSocket)
    (conds : List GSocketEvent) (ev : GSocketEvent)
    (hdis : sock.m_enabled ev = false) :
    (registeredCallbacks sock).length ≤ 1 ∧
    (dispatchTrace sock conds).all
      (fun inv => sock.m_enabled inv.event) = true ∧
    (dispatchTrace sock conds).all
      (fun inv => !(inv.event == ev)) = true := by
  refine ⟨?_, ?_, ?_⟩
  · rcases hc : sock.m_cback with _ | cb <;>
      simp [registeredCallbacks, hc]
  · rw [List.all_eq_true]
    intro inv hinv
    rw [dispatchTrace, List.mem_filterMap] at hinv
    obtain ⟨c, _, hc⟩ := hinv
    obtain ⟨he, hev⟩ := dispatchEvent_some hc
    simp [hev, he]
  · rw [List.all_eq_true]
    intro inv hinv
    rw [dispatchTrace, List.mem_filterMap] at hinv
    obtain ⟨c, _, hc⟩ := hinv
    obtain ⟨he, hev⟩ := dispatchEvent_some hc
    simp only [hev, Bool.not_eq_eq_eq_not, Bool.not_true, beq_eq_false_iff_ne]
    intro hce
    rw [hce, hdis] at he
    exact Bool.noConfusion he

/-- Witness for C3: the concrete input-only socket, observed over a
condition sequence containing output-ready and connection-lost conditions,
registers at most one callback, only delivers enabled events and never
delivers the disabled output-ready event. -/
theorem single_callback_disabled_events_silent_witness :
    sampleInputOnlySocket.m_enabled .GSOCK_OUTPUT = false ∧
    ((registeredCallbacks sampleInputOnlySocket).length ≤ 1 ∧
     (dispatchTrace sampleInputOnlySocket
         [.GSOCK_OUTPUT, .GSOCK_INPUT, .GSOCK_LOST]).all
       (fun inv => sampleInputOnlySocket.m_enabled inv.event) = true ∧
     (dispatchTrace sampleInputOnlySocket
         [.GSOCK_OUTPUT, .GSOCK_INPUT, .GSOCK_LOST]).all
       (fun inv => !(inv.event == .GSOCK_OUTPUT)) = true) :=
  ⟨by decide,
   single_callback_disabled_events_silent sampleInputOnlySocket
     [.GSOCK_OUTPUT, .GSOCK_INPUT, .GSOCK_LOST] .GSOCK_OUTPUT (by decide)⟩

/-- C4: the error enumeration has exactly the eleven listed members, without
duplicates, and every `GSocketError` value — hence the error reported by
every fallible operation of the layer, such as the Address setters, the
buffer-based getters and the socket receive — is one of the eleven. -/
theorem error_enumeration_closed :
    allGSocketErrors.length = 11 ∧
    allGSocketErrors.Nodup ∧
    (∀ e : GSocketError, e ∈ allGSocketErrors) ∧
    (∀ (s : FamilySetter) (a : GAddress), (s.run a).1 ∈ allGSocketErrors) ∧
    (∀ (a : GAddress) (buf : List Char) (sbuf : Nat),
      (GAddress_UNIX_GetPath a buf sbuf).1 ∈ allGSocketErrors) ∧
    (∀ (sock : GSocket) (avail buf : List Nat) (size : Nat),
      (GSocket_Read sock avail buf size).1 ∈ allGSocketErrors) := by
  have hall : ∀ e : GSocketError, e ∈ allGSocketErrors := by
    intro e
    cases e <;> simp [allGSocketErrors]
  exact ⟨rfl, by decide, hall, fun s a => hall _, fun a buf sbuf => hall _,
    fun sock avail buf size => hall _⟩

/-- C5: on a fresh or INET-pinned address, setting the IPv4 numeric host
address and then getting it returns the same value, and setting the port
and then getting it returns the same value. -/
theorem inet_set_get_roundtrip (a : GAddress) (h p : Nat)
    (hfam : a.m_family = .GSOCK_NOFAMILY ∨ a.m_family = .GSOCK_INET)
    (hh : h < 2 ^ 32) (hp : p < 2 ^ 16) :
    GAddress_INET_GetHostAddress (GAddress_INET_SetHostAddress a h).2 =
      .ok h ∧
    GAddress_INET_GetPort (GAddress_INET_SetPort a p).2 = .ok p := by
  rcases hfam with hf | hf <;>
    constructor <;>
      simp [GAddress_INET_SetHostAddress, GAddress_INET_SetPort,
        GAddress_INET_GetHostAddress, GAddress_INET_GetPort, familyCheck, hf,
        Nat.mod_eq_of_lt] <;>
      omega

/-- Witness for C5 at a fresh address, host 127.0.0.1 and port 80. -/
theorem inet_set_get_roundtrip_witness :
    (GAddress_new.m_family = .GSOCK_NOFAMILY ∨
     GAddress_new.m_family = .GSOCK_INET) ∧
    2130706433 < 2 ^ 32 ∧ 80 < 2 ^ 16 ∧
    (GAddress_INET_GetHostAddress
        (GAddress_INET_SetHostAddress GAddress_new 2130706433).2 =
      .ok 2130706433 ∧
     GAddress_INET_GetPort (GAddress_INET_SetPort GAddress_new 80).2 =
      .ok 80) :=
  ⟨Or.inl rfl, by decide, by decide,
   inet_set_get_roundtrip GAddress_new 2130706433 80 (Or.inl rfl)
     (by decide) (by decide)⟩

/-- Copying a fitting C string preserves the buffer length. -/
theorem writeCString_length (s buf : List Char)
    (h : s.length + 1 ≤ buf.length) :
    (writeCString s buf).length = buf.length := by
  simp [writeCString]
  omega

/-- Copying a C string never touches bytes at or beyond any position past
the string and its NUL. -/
theorem writeCString_drop (s buf : List Char) (n : Nat)
    (h : s.length + 1 ≤ n) :
    (writeCString s buf).drop n = buf.drop n := by
  unfold writeCString
  obtain ⟨k, rfl⟩ : ∃ k, n = (s.length + 1) + k := ⟨n - (s.length + 1), by omega⟩
  have hlen : s.length + 1 = (s ++ [Char.ofNat 0]).length := by simp
  rw [hlen, List.drop_append, List.drop_drop, ← hlen]

/-- The buffer-copy tail of the getters preserves the buffer length when the
stated capacity is within the buffer. -/
theorem copyToBuffer_length (s buf : List Char) (sbuf : Nat)
    (hcap : sbuf ≤ buf.length) :
    (copyToBuffer s buf sbuf).2.length = buf.length := by
  unfold copyToBuffer
  split
  · exact writeCString_length s buf (by omega)
  · rfl

/-- The buffer-copy tail of the getters never writes at or past the stated
capacity. -/
theorem copyToBuffer_drop (s buf : List Char) (sbuf : Nat) :
    (copyToBuffer s buf sbuf).2.drop sbuf = buf.drop sbuf := by
  unfold copyToBuffer
  split
  · exact writeCString_drop s buf sbuf (by omega)
  · rfl

/-- When the string and its NUL do not fit the stated capacity, the
buffer-copy tail fails and leaves the buffer untouched. -/
theorem copyToBuffer_nofit (s buf : List Char) (sbuf : Nat)
    (h : sbuf < s.length + 1) :
    copyToBuffer s buf sbuf = (.GSOCK_MEMERR, buf) := by
  unfold copyToBuffer
  rw [if_neg (by omega)]

/-- C6: each buffer-based getter (INET host name, INET6 host name, UNIX
path), given a buffer of at least the stated capacity `sbuf`, preserves the
buffer length, never writes at or past position `sbuf`, and whenever the
string to be returned does not fit in `sbuf` bytes it fails with a non-zero
error and leaves the buffer entirely untouched — the same deterministic
untouched-on-failure choice on every call. -/
theorem buffer_getters_no_overflow (a : GAddress) (buf : List Char)
    (sbuf : Nat) (revLookup revLookup6 : Nat → Option (List Char))
    (hcap : sbuf ≤ buf.length) :
    ((GAddress_INET_GetHostName revLookup a buf sbuf).2.length =
        buf.length ∧
     (GAddress_INET_GetHostName revLookup a buf sbuf).2.drop sbuf =
        buf.drop sbuf ∧
     (∀ s, revLookup a.inetHost = some s → sbuf < s.length + 1 →
        (GAddress_INET_GetHostName revLookup a buf sbuf).1 ≠
          .GSOCK_NOERROR ∧
        (GAddress_INET_GetHostName revLookup a buf sbuf).2 = buf)) ∧
    ((GAddress_INET6_GetHostName revLookup6 a buf sbuf).2.length =
        buf.length ∧
     (GAddress_INET6_GetHostName revLookup6 a buf sbuf).2.drop sbuf =
        buf.drop sbuf ∧
     (∀ s, revLookup6 a.inet6Host = some s → sbuf < s.length + 1 →
        (GAddress_INET6_GetHostName revLookup6 a buf sbuf).1 ≠
          .GSOCK_NOERROR ∧
        (GAddress_INET6_GetHostName revLookup6 a buf sbuf).2 = buf)) ∧
    ((GAddress_UNIX_GetPath a buf sbuf).2.length = buf.length ∧
     (GAddress_UNIX_GetPath a buf sbuf).2.drop sbuf = buf.drop sbuf ∧
     (sbuf < a.unixPath.length + 1 →
        (GAddress_UNIX_GetPath a buf sbuf).1 ≠ .GSOCK_NOERROR ∧
        (GAddress_UNIX_GetPath a buf sbuf).2 = buf)) := by
  refine ⟨⟨?_, ?_, ?_⟩, ⟨?_, ?_, ?_⟩, ⟨?_, ?_, ?_⟩⟩
  · unfold GAddress_INET_GetHostName
    split
    · split
      · rfl
      · exact copyToBuffer_length _ buf sbuf hcap
    · rfl
  · unfold GAddress_INET_GetHostName
    split
    · split
      · rfl
      · exact copyToBuffer_drop _ buf sbuf
    · rfl
  · intro s hs hfit
    unfold GAddress_INET_GetHostName
    split
    · rw [hs]
      show (copyToBuffer s buf sbuf).1 ≠ .GSOCK_NOERROR ∧
        (copyToBuffer s buf sbuf).2 = buf
      rw [copyToBuffer_nofit s buf sbuf hfit]
      exact ⟨fun hcon => GSocketError.noConfusion hcon, rfl⟩
    · exact ⟨fun hcon => GSocketError.noConfusion hcon, rfl⟩
  · unfold GAddress_INET6_GetHostName
    split
    · split
      · rfl
      · exact copyToBuffer_length _ buf sbuf hcap
    · rfl
  · unfold GAddress_INET6_GetHostName
    split
    · split
      · rfl
      · exact copyToBuffer_drop _ buf sbuf
    · rfl
  · intro s hs hfit
    unfold GAddress_INET6_GetHostName
    split
    · rw [hs]
      show (copyToBuffer s buf sbuf).1 ≠ .GSOCK_NOERROR ∧
        (copyToBuffer s buf sbuf).2 = buf
      rw [copyToBuffer_nofit s buf sbuf hfit]
      exact ⟨fun hcon => GSocketError.noConfusion hcon, rfl⟩
    · exact ⟨fun hcon => GSocketError.noConfusion hcon, rfl⟩
  · unfold GAddress_UNIX_GetPath
    split
    · exact copyToBuffer_length _ buf sbuf hcap
    · rfl
  · unfold GAddress_UNIX_GetPath
    split
    · exact copyToBuffer_drop _ buf sbuf
    · rfl
  · intro hfit
    unfold GAddress_UNIX_GetPath
    split
    · rw [copyToBuffer_nofit _ buf sbuf hfit]
      exact ⟨fun hcon => GSocketError.noConfusion hcon, rfl⟩
    · exact ⟨fun hcon => GSocketError.noConfusion hcon, rfl⟩

/-- Witness for C6: a UNIX-family address whose 4-character path does not
fit a 3-byte buffer fails with a non-zero error and leaves the buffer
untouched. -/
theorem buffer_getters_no_overflow_witness :
    3 ≤ (['x', 'y', 'z'] : List Char).length ∧
    3 < (GAddress_UNIX_SetPath GAddress_new
          ['/', 't', 'm', 'p']).2.unixPath.length + 1 ∧
    ((GAddress_UNIX_GetPath (GAddress_UNIX_SetPath GAddress_new
          ['/', 't', 'm', 'p']).2 ['x', 'y', 'z'] 3).1 ≠ .GSOCK_NOERROR ∧
     (GAddress_UNIX_GetPath (GAddress_UNIX_SetPath GAddress_new
          ['/', 't', 'm', 'p']).2 ['x', 'y', 'z'] 3).2 = ['x', 'y', 'z']) :=
  ⟨by decide, by decide,
   (buffer_getters_no_overflow
      (GAddress_UNIX_SetPath GAddress_new ['/', 't', 'm', 'p']).2
      ['x', 'y', 'z'] 3 (fun _ => none) (fun _ => none)
      (by decide)).2.2.2.2 (by decide)⟩

/-- C7: a receive on an open non-blocking socket with no available data
fails with would-block, records would-block as the last error, transfers
zero bytes and leaves every byte of the caller's buffer unchanged. -/
theorem nonblocking_receive_no_data_wouldblock (sock : GSocket)
    (buf : List Nat) (size : Nat) (hnb : sock.m_non_blocking = true)
    (hopen : sock.m_state ≠ .Closed) (hfd : sock.m_fd ≠ none) :
    GSocket_Read sock [] buf size =
      (.GSOCK_WOULDBLOCK, { sock with m_error := .GSOCK_WOULDBLOCK },
       buf, 0) := by
  unfold GSocket_Read
  rw [if_neg (by simp [hopen, hfd])]
  simp [hnb]

/-- Witness for C7: the concrete open non-blocking socket with no available
data returns would-block and the 3-byte buffer is returned unchanged. -/
theorem nonblocking_receive_no_data_wouldblock_witness :
    sampleInputOnlySocket.m_non_blocking = true ∧
    sampleInputOnlySocket.m_state ≠ .Closed ∧
    sampleInputOnlySocket.m_fd ≠ none ∧
    GSocket_Read sampleInputOnlySocket [] [10, 20, 30] 2 =
      (.GSOCK_WOULDBLOCK,
       { sampleInputOnlySocket with m_error := .GSOCK_WOULDBLOCK },
       [10, 20, 30], 0) :=
  ⟨rfl, by decide, by simp [sampleInputOnlySocket],
   nonblocking_receive_no_data_wouldblock sampleInputOnlySocket
     [10, 20, 30] 2 rfl (by decide) (by simp [sampleInputOnlySocket])⟩

/-- C8: on a socket in the Closed state — reached by explicit close or by a
lost-connection event — every receive and every send fails with
invalid-socket, and the socket stays Closed, so no further state reachable
by I/O can perform I/O; close and the lost-connection transition from any
socket produce exactly such a Closed socket. -/
theorem closed_socket_io_fails (sock sock2 : GSocket)
    (h : sock.m_state = .Closed) (avail : List Nat) (buf : List Nat)
    (size space : Nat) :
    (GSocket_Read sock avail buf size).1 = .GSOCK_INVSOCK ∧
    (GSocket_Read sock avail buf size).2.1.m_state = .Closed ∧
    (GSocket_Write sock space size).1 = .GSOCK_INVSOCK ∧
    (GSocket_Write sock space size).2.1.m_state = .Closed ∧
    (GSocket_Close sock2).m_state = .Closed ∧
    (GSocket_OnLostConnection sock2).m_state = .Closed ∧
    (GSocket_Read (GSocket_Close sock2) avail buf size).1 =
      .GSOCK_INVSOCK ∧
    (GSocket_Write (GSocket_OnLostConnection sock2) space size).1 =
      .GSOCK_INVSOCK := by
  refine ⟨?_, ?_, ?_, ?_, rfl, rfl, ?_, ?_⟩ <;>
    simp [GSocket_Read, GSocket_Write, GSocket_Close, GSocket_OnLostConnection,
      h]

/-- Witness for C8 at the concrete closed socket. -/
theorem closed_socket_io_fails_witness :
    sampleClosedSocket.m_state = .Closed ∧
    ((GSocket_Read sampleClosedSocket [1, 2] [0, 0] 2).1 = .GSOCK_INVSOCK ∧
     (GSocket_Read sampleClosedSocket [1, 2] [0, 0] 2).2.1.m_state =
       .Closed ∧
     (GSocket_Write sampleClosedSocket 5 2).1 = .GSOCK_INVSOCK ∧
     (GSocket_Write sampleClosedSocket 5 2).2.1.m_state = .Closed ∧
     (GSocket_Close sampleInputOnlySocket).m_state = .Closed ∧
     (GSocket_OnLostConnection sampleInputOnlySocket).m_state = .Closed ∧
     (GSocket_Read (GSocket_Close sampleInputOnlySocket) [1, 2] [0, 0] 2).1 =
       .GSOCK_INVSOCK ∧
     (GSocket_Write (GSocket_OnLostConnection sampleInputOnlySocket) 5 2).1 =
       .GSOCK_INVSOCK) :=
  ⟨rfl,
   closed_socket_io_fails sampleClosedSocket sampleInputOnlySocket rfl
     [1, 2] [0, 0] 2 5⟩

end WxGSocket
